import Mathlib

/-!
# Verification of the polkavm export-metadata encoder

A shallow embedding of `src/main.rs`: the symbol mangler (`add_function`,
`hash_string`), the metadata record encoder and export-table registration
(`add_polkavm_metadata`), and the driver (`main`).  Rust `u64` arithmetic is
modelled as `Nat` with explicit reduction modulo `2^64`; `DefaultHasher` is
the standard library's SipHash-1-3 with zero keys (including its `0xee`
finalization constant and the trailing `0xff` byte appended by `str`
hashing), transcribed here over `Nat`.
-/

namespace PvmExport

/-! ## UTF-8 byte model of Rust strings -/

/-- UTF-8 encoding of one scalar value, as byte values (`char` encoding used
by Rust `str`). -/
def utf8Char (c : Char) : List Nat :=
  let n := c.toNat
  if n < 0x80 then [n]
  else if n < 0x800 then
    [0xC0 ||| (n >>> 6), 0x80 ||| (n &&& 0x3F)]
  else if n < 0x10000 then
    [0xE0 ||| (n >>> 12), 0x80 ||| ((n >>> 6) &&& 0x3F), 0x80 ||| (n &&& 0x3F)]
  else
    [0xF0 ||| (n >>> 18), 0x80 ||| ((n >>> 12) &&& 0x3F),
     0x80 ||| ((n >>> 6) &&& 0x3F), 0x80 ||| (n &&& 0x3F)]

/-- The UTF-8 bytes of a string (Rust `str::as_bytes`). -/
def strBytes (s : String) : List Nat :=
  (s.data.map utf8Char).flatten

/-- Rust `str::len`: the UTF-8 byte length. -/
def byteLen (s : String) : Nat :=
  (strBytes s).length

/-! ## SipHash-1-3 as used by `std::hash::DefaultHasher`

`DefaultHasher::new()` is `SipHasher13::new_with_keys(0, 0)`.  Hashing a
`&str` writes its UTF-8 bytes followed by a single `0xff` byte.  The state
words are 64-bit; we carry them as `Nat` kept below `2^64`. -/

def M64 : Nat := 18446744073709551616

/-- 64-bit wrapping addition. -/
def wadd (a b : Nat) : Nat := (a + b) % M64

/-- 64-bit rotate left (`u64::rotate_left`). -/
def rotl64 (a r : Nat) : Nat := ((a <<< r) % M64) ||| (a >>> (64 - r))

structure SipState where
  v0 : Nat
  v1 : Nat
  v2 : Nat
  v3 : Nat

/-- One SipHash round. -/
def sipRound (s : SipState) : SipState :=
  let v0 := wadd s.v0 s.v1
  let v1 := rotl64 s.v1 13
  let v1 := v1 ^^^ v0
  let v0 := rotl64 v0 32
  let v2 := wadd s.v2 s.v3
  let v3 := rotl64 s.v3 16
  let v3 := v3 ^^^ v2
  let v0 := wadd v0 v3
  let v3 := rotl64 v3 21
  let v3 := v3 ^^^ v0
  let v2 := wadd v2 v1
  let v1 := rotl64 v1 17
  let v1 := v1 ^^^ v2
  let v2 := rotl64 v2 32
  ⟨v0, v1, v2, v3⟩

/-- Absorb one 64-bit message word: `v3 ^= m`, one round, `v0 ^= m`. -/
def sipCompress (s : SipState) (m : Nat) : SipState :=
  let s := { s with v3 := s.v3 ^^^ m }
  let s := sipRound s
  { s with v0 := s.v0 ^^^ m }

/-- Finalization: absorb the length-tagged last word, `v2 ^= 0xee`
(the constant used by the Rust standard library), three rounds, xor the
state words together. -/
def sipFinish (s : SipState) (b : Nat) : Nat :=
  let s := sipCompress s b
  let s := { s with v2 := s.v2 ^^^ 0xee }
  let s := sipRound (sipRound (sipRound s))
  ((s.v0 ^^^ s.v1) ^^^ s.v2) ^^^ s.v3

/-- Initial state for keys `(0, 0)`. -/
def sipInit : SipState :=
  ⟨0x736f6d6570736575, 0x646f72616e646f6d, 0x6c7967656e657261, 0x7465646279746573⟩

/-- Little-endian value of a byte list (bytes past the end read as zero). -/
def le64 (bs : List Nat) : Nat :=
  bs.foldr (fun b acc => b % 256 + 256 * acc) 0

/-- Consume the message eight bytes at a time, then finalize on the tail
with the total length in the top byte of the last word. -/
def sipLoop (s : SipState) (len : Nat) : List Nat → Nat
  | b0 :: b1 :: b2 :: b3 :: b4 :: b5 :: b6 :: b7 :: rest =>
      sipLoop (sipCompress s (le64 [b0, b1, b2, b3, b4, b5, b6, b7])) len rest
  | tail => sipFinish s (((len % 256) <<< 56) + le64 tail)

/-- The 64-bit value `DefaultHasher` produces for a Rust `&str`. -/
def hash64 (s : String) : Nat :=
  sipLoop sipInit (byteLen s + 1) (strBytes s ++ [0xff])

/-! ## Lowercase hex rendering (`hex::encode` of `u64::to_be_bytes`) -/

/-- Lowercase hexadecimal digit for a value below 16. -/
def hexDigit (n : Nat) : Char :=
  if n < 10 then Char.ofNat (48 + n) else Char.ofNat (87 + n)

/-- Two lowercase hex characters for one byte, high nibble first. -/
def hexPair (b : Nat) : List Char :=
  [hexDigit (b / 16), hexDigit (b % 16)]

/-- Big-endian byte decomposition of a 64-bit value (`u64::to_be_bytes`). -/
def toBeBytes8 (n : Nat) : List Nat :=
  [n >>> 56 % 256, n >>> 48 % 256, n >>> 40 % 256, n >>> 32 % 256,
   n >>> 24 % 256, n >>> 16 % 256, n >>> 8 % 256, n % 256]

/-- `hash_string` from `src/main.rs`: hash with `DefaultHasher`, render the
64-bit result as 16 lowercase hex characters (big-endian byte order). -/
def hash_string (s : String) : String :=
  String.mk ((toBeBytes8 (hash64 s)).map hexPair).flatten

/-! ## Symbol mangling (`add_function` and `add_polkavm_metadata`) -/

/-- The mangled function symbol built in `add_function`:
`_ZN<len><module><len><name>17h<hash of "module::name">E`. -/
def mangle (module_name fn_name : String) : String :=
  "_ZN" ++ toString (byteLen module_name) ++ module_name
    ++ toString (byteLen fn_name) ++ fn_name
    ++ "17h" ++ hash_string (module_name ++ "::" ++ fn_name) ++ "E"

/-- The metadata symbol built in `add_polkavm_metadata`:
`_ZN<len><module><len><name>8METADATA17h<hash of "METADATA">E`. -/
def mangle_metadata (module_name fn_name : String) : String :=
  "_ZN" ++ toString (byteLen module_name) ++ module_name
    ++ toString (byteLen fn_name) ++ fn_name
    ++ "8METADATA17h" ++ hash_string "METADATA" ++ "E"

/-! ## LLVM globals as emitted by the encoder -/

/-- The linkage kinds the program sets on its globals and functions. -/
inductive Linkage where
  | internal
  | privateLinkage
  | external
deriving DecidableEq

/-- Constant initializers, as built through `LLVMConstStringInContext2`,
`LLVMConstInt` byte arrays, `LLVMConstPointerCast` and `LLVMConstStruct`. -/
inductive Init where
  /-- An array of `i8` constants, each value reduced modulo 256. -/
  | bytes (bs : List Nat)
  /-- A pointer cast of the global with the given symbol. -/
  | ptrCast (target : String)
  /-- A (possibly packed) struct of constant fields. -/
  | structv (packed : Bool) (fields : List Init)

/-- One global variable added with `LLVMAddGlobal` plus the attributes the
program sets on it. -/
structure Global where
  symbol : String
  sectionName : String
  linkage : Linkage
  alignment : Nat
  isConstant : Bool
  unnamedAddr : Bool
  globInit : Init

/-! ## `add_polkavm_metadata` -/

/-- The backing name blob: a one-field struct holding the raw bytes of
`fn_name` (`LLVMConstStringInContext2` with `DontNullTerminate = 1`), named
`alloc_<hash of fn_name>`, private, unnamed-addr, constant, align 1, in
section `.rodata..Lalloc_<same hash>`. -/
def name_blob_global (fn_name : String) : Global :=
  { symbol := "alloc_" ++ hash_string fn_name
    sectionName := ".rodata..Lalloc_" ++ hash_string fn_name
    linkage := Linkage.privateLinkage
    alignment := 1
    isConstant := true
    unnamedAddr := true
    globInit := Init.structv false [Init.bytes (strBytes fn_name)] }

/-- Little-endian byte decomposition of `fn_name.len() as u32`
(`u32::to_le_bytes` composed with the truncating cast). -/
def leBytes4 (n : Nat) : List Nat :=
  [n % 256, n / 256 % 256, n / 65536 % 256, n / 16777216 % 256]

/-- First field of the extended struct: version byte 1, four zero flag
bytes, then the name length as a little-endian `u32`. -/
def field0 (fn_name : String) : List Nat :=
  [1, 0, 0, 0, 0] ++ leBytes4 (byteLen fn_name)

/-- The extended metadata struct global: a packed struct
`{ [u8;9], ptr, [u8;2] }` initialized with `field0`, a pointer cast of the
name blob, and `[num_args, 1]`; named by `mangle_metadata`, constant,
align 1, internal linkage, in section `.polkavm_metadata`.  `num_args` is a
Rust `u8`, hence the reduction modulo 256. -/
def metadata_global (module_name fn_name : String) (num_args : Nat) : Global :=
  { symbol := mangle_metadata module_name fn_name
    sectionName := ".polkavm_metadata"
    linkage := Linkage.internal
    alignment := 1
    isConstant := true
    unnamedAddr := false
    globInit := Init.structv true
      [Init.bytes (field0 fn_name),
       Init.ptrCast ("alloc_" ++ hash_string fn_name),
       Init.bytes [num_args % 256, 1]] }

/-- The textual directive block pushed for one export (the `format!` at the
end of `add_polkavm_metadata`). -/
def export_directive (metadata_symbol fn_symbol : String) : String :=
  ".pushsection .polkavm_exports,\"R\",@note\n.byte 1\n.4byte "
    ++ metadata_symbol ++ "\n.4byte " ++ fn_symbol ++ "\n.popsection\n"

/-- `add_polkavm_metadata`: adds the name blob and the metadata struct to
the module and appends one export directive block to the accumulated
module-level assembly buffer.  Returns the globals added and the new
buffer. -/
def add_polkavm_metadata (module_name fn_name mangled_fn_name : String)
    (num_args : Nat) (asm : String) : List Global × String :=
  ([name_blob_global fn_name, metadata_global module_name fn_name num_args],
   asm ++ export_directive (mangle_metadata module_name fn_name) mangled_fn_name)

/-! ## Decoding an extended record (the loader's view) -/

/-- Read back `(name_len, arg_count, has_return)` from an extended metadata
struct: check the version byte, decode the little-endian `name_len`, and
return the two trailer bytes. -/
def decode_extended (g : Global) : Option (Nat × Nat × Nat) :=
  match g.globInit with
  | Init.structv _ [Init.bytes [v, _a, _b, _c, _d, b0, b1, b2, b3],
      Init.ptrCast _, Init.bytes [args, ret]] =>
      if v = 1 then
        some (b0 + 256 * b1 + 65536 * b2 + 16777216 * b3, args, ret)
      else none
  | _ => none

/-! ## The module under construction and the driver -/

/-- The slice of LLVM module state the encoder touches: globals, declared
functions (symbol, section, linkage), and the list of values passed to
`LLVMSetModuleInlineAsm2` (one entry per call). -/
structure LLVMModule where
  globals : List Global
  funcs : List (String × String × Linkage)
  asmSets : List String

/-- `add_function` from `src/main.rs`, restricted to the export-encoding
core: declare the function under its mangled symbol in section
`.text.polkavm_export.<fn_name>` with internal linkage, then run
`add_polkavm_metadata` with `num_args = 2`, threading the assembly
buffer. -/
def add_function (md : LLVMModule) (module_name fn_name : String)
    (asm : String) : LLVMModule × String :=
  let mangled := mangle module_name fn_name
  let step := add_polkavm_metadata module_name fn_name mangled 2 asm
  ({ md with
      funcs := md.funcs ++ [(mangled, ".text.polkavm_export." ++ fn_name, Linkage.internal)]
      globals := md.globals ++ step.1 },
   step.2)

/-- The driver (`main`): module `my_module`, exports `sum` then `sub`, and
one final `LLVMSetModuleInlineAsm2` with the accumulated buffer. -/
def mainBuild : LLVMModule :=
  let st0 : LLVMModule := ⟨[], [], []⟩
  let step1 := add_function st0 "my_module" "sum" ""
  let step2 := add_function step1.1 "my_module" "sub" step1.2
  { step2.1 with asmSets := step2.1.asmSets ++ [step2.2] }

/-- Registration loop over a list of function names, as the driver performs
it (each export registered through `add_polkavm_metadata`, `num_args = 2`,
in declaration order). -/
def registerAll (module_name : String) (fns : List String) (asm : String) : String :=
  fns.foldl
    (fun acc f => (add_polkavm_metadata module_name f (mangle module_name f) 2 acc).2)
    asm

/-- One export's directive block, as a function of module and function
name. -/
def export_block (module_name fn_name : String) : String :=
  export_directive (mangle_metadata module_name fn_name) (mangle module_name fn_name)

/-! ## The two record layouts -/

/-- The in-memory export descriptor of spec §3. -/
structure ExportDescriptor where
  source_name : String
  module_name : String
  mangled_symbol : String
  arg_count : Nat
  has_return : Bool

/-- The two metadata record layouts observed across iterations. -/
inductive MetadataLayout where
  | minimal
  | extended

/-- Modelled from the spec: the minimal-layout encoder is absent from
`src/` (only the extended layout appears there); per spec §4.2, the minimal
layout emits "exactly one binary blob of 9 bytes" — version byte 1 followed
by eight reserved zero bytes — "placed in section `.polkavm_exports`, with
external linkage", default alignment (0). -/
def encode_minimal (d : ExportDescriptor) : List Global :=
  [{ symbol := d.mangled_symbol
     sectionName := ".polkavm_exports"
     linkage := Linkage.external
     alignment := 0
     isConstant := true
     unnamedAddr := false
     globInit := Init.bytes [1, 0, 0, 0, 0, 0, 0, 0, 0] }]

/-- Layout-selectable encoding of a descriptor: the extended arm is the
`add_polkavm_metadata` pair of globals from `src/`, the minimal arm is the
spec-modelled `encode_minimal`. -/
def encode (d : ExportDescriptor) : MetadataLayout → List Global
  | MetadataLayout.minimal => encode_minimal d
  | MetadataLayout.extended =>
      (add_polkavm_metadata d.module_name d.source_name d.mangled_symbol
        d.arg_count "").1

/-! ## Helper notions for the symbol-grammar claims -/

/-- The length-prefixed segment part shared by the function symbol and the
metadata symbol: `_ZN<len><module><len><name>`. -/
def metaSeg (module_name fn_name : String) : String :=
  "_ZN" ++ toString (byteLen module_name) ++ module_name
    ++ toString (byteLen fn_name) ++ fn_name

/-- The 16 characters standing immediately before the final `E` of a
mangled symbol: its hash suffix. -/
def hashSuffixOf (s : String) : String :=
  String.mk ((s.data.reverse.drop 1).take 16).reverse

/-- The sixteen lowercase hexadecimal characters. -/
def hexLowerChars : List Char :=
  String.data "0123456789abcdef"

/-- A lowercase hexadecimal character. -/
def isHexLower (c : Char) : Prop := c ∈ hexLowerChars

instance (c : Char) : Decidable (isHexLower c) :=
  inferInstanceAs (Decidable (c ∈ hexLowerChars))

/-- An ASCII string (every scalar value below 128). -/
def asciiStr (s : String) : Prop := ∀ c ∈ s.data, c.toNat < 128

instance (s : String) : Decidable (asciiStr s) :=
  inferInstanceAs (Decidable (∀ c ∈ s.data, c.toNat < 128))

/-! ## General lemmas -/

/-- Every hexadecimal digit below 16 renders as a lowercase hex
character. -/
theorem hexDigit_mem (n : Nat) (hn : n < 16) : isHexLower (hexDigit n) := by
  interval_cases n <;> decide

/-- `hash_string` always yields 16 lowercase hexadecimal characters. -/
theorem hash_string_sixteen_hex (s : String) :
    (hash_string s).length = 16 ∧ ∀ c ∈ (hash_string s).data, isHexLower c := by
  refine ⟨rfl, ?_⟩
  intro c hc
  simp only [hash_string, toBeBytes8, hexPair, List.map_cons, List.map_nil,
    List.flatten_cons, List.flatten_nil, List.cons_append, List.nil_append,
    List.append_nil, List.mem_cons, List.not_mem_nil, or_false] at hc
  rcases hc with h | h | h | h | h | h | h | h | h | h | h | h | h | h | h | h <;>
    (subst h; exact hexDigit_mem _ (by omega))

/-- Extracting the hash suffix of a string of the shape
`prefix ++ hash ++ "E"` with a 16-character hash gives back the hash. -/
theorem hashSuffixOf_append (p h : String) (hh : h.data.length = 16) :
    hashSuffixOf (p ++ h ++ "E") = h := by
  apply String.ext
  show (((p ++ h ++ "E").data.reverse.drop 1).take 16).reverse = h.data
  rw [String.data_append, String.data_append]
  have he : ("E" : String).data = ['E'] := rfl
  rw [he]
  simp only [List.reverse_append, List.reverse_cons, List.reverse_nil,
    List.nil_append, List.singleton_append, List.drop_succ_cons, List.drop_zero]
  rw [List.take_left' (by rw [List.length_reverse, hh]), List.reverse_reverse]

/-- The metadata symbol splits as segments, tag, constant hash, `E`. -/
theorem mangle_metadata_split (m f : String) :
    mangle_metadata m f =
      (metaSeg m f ++ "8METADATA17h") ++ hash_string "METADATA" ++ "E" := rfl

/-! ## Claims -/

/-- C1: encoding the export `sum` of module `my_module` with `arg_count = 2`
in the extended layout produces a metadata struct whose initializer bytes
begin `01 00 00 00 00 03 00 00 00` (version 1, four zero flag bytes,
`name_len = 3` little-endian), followed by one pointer field, followed by
the trailer bytes `02 01` (`arg_count`, `has_return`). -/
theorem c1_extended_sum_record :
    ∃ p : String,
      (metadata_global "my_module" "sum" 2).globInit =
        Init.structv true
          [Init.bytes [1, 0, 0, 0, 0, 3, 0, 0, 0], Init.ptrCast p,
           Init.bytes [2, 1]] :=
  ⟨"alloc_" ++ hash_string "sum", rfl⟩

/-- C2 counterexample: at module `my_module`, function `sum`, the hash
suffix of the metadata symbol differs from the hash suffix of the function
symbol — the function symbol carries the hash of `"my_module::sum"`, the
metadata symbol carries the hash of the literal `"METADATA"`. -/
theorem c2_suffix_counterexample :
    hashSuffixOf (mangle_metadata "my_module" "sum")
        ≠ hashSuffixOf (mangle "my_module" "sum")
    ∧ hashSuffixOf (mangle "my_module" "sum")
        = hash_string ("my_module" ++ "::" ++ "sum")
    ∧ hashSuffixOf (mangle_metadata "my_module" "sum") = hash_string "METADATA" :=
  ⟨by decide, by decide, by decide⟩

/-- C2 (amended): the metadata symbol inserts the literal tag `METADATA` as
an extra length-prefixed segment after the function name segment of the
function symbol, keeping the grammar
`_ZN<len><module><len><name>8METADATA17h<16-hex-hash>E`, but its 16-hex
hash suffix is the hash of the literal string `"METADATA"` (constant across
all exports), not the function symbol's hash of
`"{module_name}::{function_name}"`. -/
theorem c2_metadata_symbol_grammar (m f : String) :
    mangle m f = metaSeg m f ++ "17h" ++ hash_string (m ++ "::" ++ f) ++ "E"
    ∧ mangle_metadata m f
        = metaSeg m f ++ "8METADATA17h" ++ hash_string "METADATA" ++ "E"
    ∧ hashSuffixOf (mangle_metadata m f) = hash_string "METADATA"
    ∧ (hash_string "METADATA").length = 16
    ∧ ∀ c ∈ (hash_string "METADATA").data, isHexLower c := by
  refine ⟨rfl, rfl, ?_, by decide, by decide⟩
  rw [mangle_metadata_split]
  exact hashSuffixOf_append _ _ (by decide)

/-- C3: for every non-empty ASCII `module_name` and `function_name`, the
mangled function symbol is `_ZN`, the decimal byte length of the module
name, the module name, the decimal byte length of the function name, the
function name, `17h`, the 64-bit hash of `"{module_name}::{function_name}"`
rendered as exactly 16 lowercase hexadecimal characters, then `E`. -/
theorem c3_function_symbol_grammar (m f : String) (_hm : m ≠ "") (_hf : f ≠ "")
    (_ham : asciiStr m) (_haf : asciiStr f) :
    mangle m f = "_ZN" ++ toString (byteLen m) ++ m ++ toString (byteLen f) ++ f
        ++ "17h" ++ hash_string (m ++ "::" ++ f) ++ "E"
    ∧ (hash_string (m ++ "::" ++ f)).length = 16
    ∧ ∀ c ∈ (hash_string (m ++ "::" ++ f)).data, isHexLower c :=
  ⟨rfl, (hash_string_sixteen_hex _).1, (hash_string_sixteen_hex _).2⟩

/-- C3 witness at `("my_module", "sum")`. -/
theorem c3_function_symbol_grammar_witness :
    mangle "my_module" "sum"
        = "_ZN" ++ toString (byteLen "my_module") ++ "my_module"
          ++ toString (byteLen "sum") ++ "sum"
          ++ "17h" ++ hash_string ("my_module" ++ "::" ++ "sum") ++ "E"
    ∧ (hash_string ("my_module" ++ "::" ++ "sum")).length = 16
    ∧ ∀ c ∈ (hash_string ("my_module" ++ "::" ++ "sum")).data, isHexLower c :=
  c3_function_symbol_grammar "my_module" "sum" (by decide) (by decide)
    (by decide) (by decide)

/-- C4: the encoder supports the minimal layout as a selectable
configuration choice — encoding a descriptor with the `minimal` layout
emits exactly one 9-byte blob `01 00 00 00 00 00 00 00 00` (version 1,
eight reserved zero bytes) in section `.polkavm_exports` with external
linkage.  (The minimal arm is modelled from the spec; only the extended
layout appears in `src/`.) -/
theorem c4_minimal_layout (d : ExportDescriptor) :
    ∃ g : Global, encode d MetadataLayout.minimal = [g]
      ∧ g.globInit = Init.bytes [1, 0, 0, 0, 0, 0, 0, 0, 0]
      ∧ g.sectionName = ".polkavm_exports"
      ∧ g.linkage = Linkage.external :=
  ⟨_, rfl, rfl, rfl, rfl⟩

set_option maxRecDepth 100000 in
/-- C5 counterexample: registering `("my_module", "sum")` twice does not
leave the export-directive buffer unchanged — the buffer after the second
call differs from the buffer after the first (no `DuplicateExport`
rejection exists in the code). -/
theorem c5_duplicate_counterexample :
    (add_polkavm_metadata "my_module" "sum" (mangle "my_module" "sum") 2
        ((add_polkavm_metadata "my_module" "sum" (mangle "my_module" "sum") 2
          "").2)).2
      ≠ (add_polkavm_metadata "my_module" "sum" (mangle "my_module" "sum") 2
          "").2 := by
  decide

/-- C5 (amended): registering the same function symbol twice is not
rejected — the code performs no duplicate detection and has no error path;
the second call appends a second copy of the same directive block, so after
the second call the buffer is the original buffer followed by the block
twice. -/
theorem c5_duplicate_appends (m f asm0 : String) (n : Nat) :
    (add_polkavm_metadata m f (mangle m f) n
        ((add_polkavm_metadata m f (mangle m f) n asm0).2)).2
      = asm0 ++ export_directive (mangle_metadata m f) (mangle m f)
          ++ export_directive (mangle_metadata m f) (mangle m f) := rfl

/-- C6: in every extended record, `name_len` equals the byte length of the
source name exactly, the backing blob holds exactly the raw UTF-8 bytes of
the name with no terminator, and decoding the record reads back `name_len`
equal to the true byte length of the name blob, and `arg_count` and
`has_return` equal to the encoded values (`num_args` is a Rust `u8`, and
the name length must fit the `u32` field). -/
theorem c6_extended_roundtrip (m f : String) (n : Nat)
    (hf : byteLen f < 4294967296) (hn : n < 256) :
    (name_blob_global f).globInit = Init.structv false [Init.bytes (strBytes f)]
    ∧ byteLen f = (strBytes f).length
    ∧ decode_extended (metadata_global m f n) = some (byteLen f, n, 1) := by
  refine ⟨rfl, rfl, ?_⟩
  have h1 : decode_extended (metadata_global m f n) =
      some (byteLen f % 256 + 256 * (byteLen f / 256 % 256)
            + 65536 * (byteLen f / 65536 % 256)
            + 16777216 * (byteLen f / 16777216 % 256), n % 256, 1) := rfl
  have h2 : byteLen f % 256 + 256 * (byteLen f / 256 % 256)
      + 65536 * (byteLen f / 65536 % 256)
      + 16777216 * (byteLen f / 16777216 % 256) = byteLen f := by omega
  rw [h1, h2, Nat.mod_eq_of_lt hn]

/-- C6 witness at `("my_module", "sum", 2)`. -/
theorem c6_extended_roundtrip_witness :
    (name_blob_global "sum").globInit
        = Init.structv false [Init.bytes (strBytes "sum")]
    ∧ byteLen "sum" = (strBytes "sum").length
    ∧ decode_extended (metadata_global "my_module" "sum" 2)
        = some (byteLen "sum", 2, 1) :=
  c6_extended_roundtrip "my_module" "sum" 2 (by decide) (by decide)

set_option maxRecDepth 100000 in
/-- C7: registering exports `f1, f2, f3` in that order yields a directive
buffer that is the in-order concatenation of one push/pop-delimited
directive block per export — each block a version byte 1 followed by a
4-byte reference to the metadata symbol and a 4-byte reference to the
mangled function symbol — and the driver attaches the buffer to the module
exactly once, at the end of construction. -/
theorem c7_export_order (mname f1 f2 f3 asm0 : String) :
    registerAll mname [f1, f2, f3] asm0
      = asm0 ++ export_block mname f1 ++ export_block mname f2
          ++ export_block mname f3
    ∧ (∀ f : String, export_block mname f
        = ".pushsection .polkavm_exports,\"R\",@note\n.byte 1\n.4byte "
          ++ mangle_metadata mname f ++ "\n.4byte " ++ mangle mname f
          ++ "\n.popsection\n")
    ∧ mainBuild.asmSets
        = [export_block "my_module" "sum" ++ export_block "my_module" "sub"] := by
  refine ⟨rfl, fun f => rfl, ?_⟩
  decide

/-- C8 counterexample: the blob's `.rodata` subsection is not keyed by the
metadata symbol — at `("my_module", "sum")` the metadata symbol does not
occur in the blob's section name at all, and two different module names
with the same function name give the same blob section even though their
metadata symbols differ. -/
theorem c8_blob_section_counterexample :
    ¬ List.IsInfix (mangle_metadata "my_module" "sum").data
        (name_blob_global "sum").sectionName.data
    ∧ ((add_polkavm_metadata "m1" "sum" (mangle "m1" "sum") 2 "").1.head?.map
          Global.sectionName
        = (add_polkavm_metadata "m2" "sum" (mangle "m2" "sum") 2 "").1.head?.map
          Global.sectionName)
    ∧ mangle_metadata "m1" "sum" ≠ mangle_metadata "m2" "sum" :=
  ⟨by decide, by decide, by decide⟩

/-- C8 (amended): each extended-layout export emits exactly two globals:
(a) a constant name blob with the raw bytes of the source name, in a
`.rodata` subsection keyed by a 16-hex hash of the function name alone (the
blob's own `alloc_<hash>` symbol), 1-byte aligned, private linkage,
unnamed-addr; and (b) the extended struct in section `.polkavm_metadata`,
1-byte aligned, constant, internal linkage, whose pointer field is a
pointer-cast reference to (a). -/
theorem c8_two_globals (m f : String) (n : Nat) (asm0 : String) :
    (add_polkavm_metadata m f (mangle m f) n asm0).1
      = [name_blob_global f, metadata_global m f n]
    ∧ (name_blob_global f).symbol = "alloc_" ++ hash_string f
    ∧ (name_blob_global f).sectionName = ".rodata..Lalloc_" ++ hash_string f
    ∧ (name_blob_global f).linkage = Linkage.privateLinkage
    ∧ (name_blob_global f).alignment = 1
    ∧ (name_blob_global f).isConstant = true
    ∧ (name_blob_global f).unnamedAddr = true
    ∧ (name_blob_global f).globInit
        = Init.structv false [Init.bytes (strBytes f)]
    ∧ (metadata_global m f n).sectionName = ".polkavm_metadata"
    ∧ (metadata_global m f n).alignment = 1
    ∧ (metadata_global m f n).isConstant = true
    ∧ (metadata_global m f n).linkage = Linkage.internal
    ∧ (metadata_global m f n).globInit
        = Init.structv true
            [Init.bytes (field0 f), Init.ptrCast (name_blob_global f).symbol,
             Init.bytes [n % 256, 1]] :=
  ⟨rfl, rfl, rfl, rfl, rfl, rfl, rfl, rfl, rfl, rfl, rfl, rfl, rfl⟩

/-- C9: the 16-hex hash suffix of every metadata symbol is the same — the
hash of the literal `"METADATA"`, independent of module and function name —
so two metadata symbols are equal exactly when their length-prefixed
segment parts are equal; distinctness never rests on the hash suffix. -/
theorem c9_metadata_hash_suffix_constant (m1 f1 m2 f2 : String) :
    hashSuffixOf (mangle_metadata m1 f1) = hash_string "METADATA"
    ∧ hashSuffixOf (mangle_metadata m1 f1) = hashSuffixOf (mangle_metadata m2 f2)
    ∧ (mangle_metadata m1 f1 = mangle_metadata m2 f2
        ↔ metaSeg m1 f1 = metaSeg m2 f2) := by
  have key : ∀ m f : String,
      hashSuffixOf (mangle_metadata m f) = hash_string "METADATA" := by
    intro m f
    rw [mangle_metadata_split]
    exact hashSuffixOf_append _ _ (by decide)
  have dataEq : ∀ m f : String, (mangle_metadata m f).data
      = (metaSeg m f).data
        ++ ("8METADATA17h" ++ hash_string "METADATA" ++ "E").data := by
    intro m f
    rw [mangle_metadata_split]
    simp [String.data_append, List.append_assoc]
  refine ⟨key m1 f1, (key m1 f1).trans (key m2 f2).symm, ?_, ?_⟩
  · intro h
    apply String.ext
    have hd := congrArg String.data h
    rw [dataEq, dataEq] at hd
    exact List.append_cancel_right hd
  · intro h
    rw [mangle_metadata_split, mangle_metadata_split, h]

/-- C10: the backing name blob's symbol and section are derived from the
function name alone — `alloc_<hash(fn)>` and `.rodata..Lalloc_<hash(fn)>` —
with no dependence on the module name, so two same-named functions from
different modules produce the same blob symbol and section. -/
theorem c10_blob_keyed_by_function_name_only (m1 m2 f : String) (n1 n2 : Nat) :
    (add_polkavm_metadata m1 f (mangle m1 f) n1 "").1.head?
      = (add_polkavm_metadata m2 f (mangle m2 f) n2 "").1.head?
    ∧ (add_polkavm_metadata m1 f (mangle m1 f) n1 "").1.head?
        = some (name_blob_global f)
    ∧ (name_blob_global f).symbol = "alloc_" ++ hash_string f
    ∧ (name_blob_global f).sectionName = ".rodata..Lalloc_" ++ hash_string f :=
  ⟨rfl, rfl, rfl, rfl⟩

end PvmExport
